import Mathlib

/-!
Verification of `src/examples/factorial.py`.

The file defines `calculate_factorial`, which validates its integer input
(raising `ValueError` on negative numbers) and otherwise computes the
factorial with an iterative loop, plus a `__main__` demonstration block
that calls it on `5`, `0` and `-1` inside a `try`/`except` and prints the
results.  Raising is embedded as `Except String Int`: `Except.error msg`
stands for `raise ValueError(msg)`.
-/

/-- The loop body of `calculate_factorial` for `number > 0`:
`factorial_result = 1; for i in range(1, number + 1): factorial_result *= i`.
Python's `range(1, n + 1)` is `List.range' 1 n = [1, 2, ..., n]`. -/
def factorialLoop (n : Nat) : Int :=
  (List.range' 1 n).foldl (fun acc i => acc * Int.ofNat i) 1

/-- Embedding of `calculate_factorial(number)` from `src/examples/factorial.py`:
negative input raises `ValueError("Factorial is not defined for negative
numbers")`, zero returns `1`, and positive input runs the iterative loop. -/
def calculate_factorial (number : Int) : Except String Int :=
  if number < 0 then
    Except.error "Factorial is not defined for negative numbers"
  else if number = 0 then
    Except.ok 1
  else
    Except.ok (factorialLoop number.toNat)

/-- The line printed on success: `The factorial of {n} is {result}`. -/
def successLine (n r : Int) : String :=
  "The factorial of " ++ toString n ++ " is " ++ toString r

/-- The line printed by the `except ValueError` handler: `Error: {e}`. -/
def errorLine (msg : String) : String :=
  "Error: " ++ msg

/-- Embedding of the `__main__` block: call `calculate_factorial` on `5`,
`0` and `-1` in order inside one `try`; each success prints its line, and
the first raised `ValueError` aborts the rest of the `try` body and prints
`Error: {e}`.  The value is the list of printed lines in order. -/
def demoMain : List String :=
  match calculate_factorial 5 with
  | Except.error e => [errorLine e]
  | Except.ok r1 =>
    match calculate_factorial 0 with
    | Except.error e => [successLine 5 r1, errorLine e]
    | Except.ok r2 =>
      match calculate_factorial (-1) with
      | Except.error e => [successLine 5 r1, successLine 0 r2, errorLine e]
      | Except.ok r3 => [successLine 5 r1, successLine 0 r2, successLine (-1) r3]

/-- Modelled from the spec (for the refinement claim): the naive recursive
definition of factorial, `factorial(0) == 1` and
`factorial(n) == n * factorial(n-1)` for `n > 0`. -/
def naiveFactorial : Nat → Int
  | 0 => 1
  | n + 1 => (n + 1 : Int) * naiveFactorial n

/-- Peeling the last iteration off the loop. -/
theorem factorialLoop_succ (n : Nat) :
    factorialLoop (n + 1) = factorialLoop n * (n + 1 : Int) := by
  unfold factorialLoop
  rw [List.range'_concat, List.foldl_append, List.foldl_cons, List.foldl_nil,
    Int.ofNat_eq_natCast]
  push_cast
  ring

/-- The loop computes the mathematical factorial. -/
theorem factorialLoop_eq_factorial (n : Nat) :
    factorialLoop n = (Nat.factorial n : Int) := by
  induction n with
  | zero => rfl
  | succ k ih =>
    rw [factorialLoop_succ, ih, Nat.factorial_succ]
    push_cast
    ring

/-- On non-negative input, `calculate_factorial` returns the mathematical
factorial. -/
theorem calculate_factorial_eq_factorial (n : Int) (h : 0 ≤ n) :
    calculate_factorial n = Except.ok (Nat.factorial n.toNat : Int) := by
  unfold calculate_factorial
  rw [if_neg (by omega)]
  by_cases h0 : n = 0
  · subst h0
    simp [Nat.factorial]
  · rw [if_neg h0, factorialLoop_eq_factorial]

/-- The naive recursive definition agrees with `Nat.factorial`. -/
theorem naiveFactorial_eq_factorial (n : Nat) :
    naiveFactorial n = (Nat.factorial n : Int) := by
  induction n with
  | zero => rfl
  | succ k ih =>
    rw [naiveFactorial, ih, Nat.factorial_succ]
    push_cast
    ring

/-- Claim C1: for every integer n >= 0, calculate_factorial n returns
(does not raise) the mathematical factorial of n, i.e. the product of all
integers from 1 to n inclusive, and 1 when n = 0. -/
theorem claim_factorial_correct (n : Int) (h : 0 ≤ n) :
    calculate_factorial n = Except.ok (Nat.factorial n.toNat : Int) :=
  calculate_factorial_eq_factorial n h

/-- Witness for C1 at n = 5. -/
theorem claim_factorial_correct_witness :
    (0 : Int) ≤ 5 ∧
      calculate_factorial 5 = Except.ok (Nat.factorial (5 : Int).toNat : Int) :=
  ⟨by decide, claim_factorial_correct 5 (by decide)⟩

/-- Claim C2: calculate_factorial n raises ValueError, with the message
"Factorial is not defined for negative numbers", exactly when n < 0; for
n >= 0 it raises nothing and returns a value. -/
theorem claim_error_iff_negative (n : Int) :
    (n < 0 ∧
      calculate_factorial n =
        Except.error "Factorial is not defined for negative numbers") ∨
    (0 ≤ n ∧ ∃ r : Int, calculate_factorial n = Except.ok r) := by
  by_cases h : n < 0
  · left
    exact ⟨h, by unfold calculate_factorial; rw [if_pos h]⟩
  · right
    exact ⟨by omega, _, calculate_factorial_eq_factorial n (by omega)⟩

/-- Claim C3: calculate_factorial 0 = 1 and, for every integer n > 0,
calculate_factorial n = n * calculate_factorial (n - 1). -/
theorem claim_recurrence :
    calculate_factorial 0 = Except.ok 1 ∧
    ∀ n : Int, 0 < n → ∃ r : Int,
      calculate_factorial (n - 1) = Except.ok r ∧
      calculate_factorial n = Except.ok (n * r) := by
  refine ⟨rfl, fun n hn => ?_⟩
  refine ⟨(Nat.factorial (n - 1).toNat : Int),
    calculate_factorial_eq_factorial (n - 1) (by omega), ?_⟩
  rw [calculate_factorial_eq_factorial n (by omega)]
  congr 1
  have hsucc : n.toNat = (n - 1).toNat + 1 := by omega
  rw [hsucc, Nat.factorial_succ]
  push_cast
  have hcast : (((n - 1).toNat : Int)) = n - 1 := by omega
  rw [hcast]
  ring

/-- Witness for C3 at n = 3. -/
theorem claim_recurrence_witness :
    ∃ r : Int, calculate_factorial 2 = Except.ok r ∧
      calculate_factorial 3 = Except.ok (3 * r) :=
  claim_recurrence.2 3 (by decide)

/-- Claim C4: the iterative implementation (accumulator initialized to 1,
multiplied successively by each i in 1..n) agrees, for every n >= 0, with
the naive recursive definition of factorial, and hence so does
calculate_factorial on non-negative input. -/
theorem claim_iterative_eq_naive (n : Nat) :
    factorialLoop n = naiveFactorial n ∧
      calculate_factorial (n : Int) = Except.ok (naiveFactorial n) := by
  constructor
  · rw [factorialLoop_eq_factorial, naiveFactorial_eq_factorial]
  · rw [calculate_factorial_eq_factorial (n : Int) (by positivity),
      naiveFactorial_eq_factorial, Int.toNat_natCast]

/-- Claim C5: calculate_factorial 5 = 120, calculate_factorial 0 = 1 and
calculate_factorial 1 = 1. -/
theorem claim_examples :
    calculate_factorial 5 = Except.ok 120 ∧
    calculate_factorial 0 = Except.ok 1 ∧
    calculate_factorial 1 = Except.ok 1 := by
  refine ⟨rfl, rfl, rfl⟩

/-- Claim C6: the demonstration entry point calls calculate_factorial on 5,
0 and -1 in that order and prints exactly "The factorial of 5 is 120",
"The factorial of 0 is 1", and then, the call on -1 having raised and been
caught, "Error: Factorial is not defined for negative numbers". -/
theorem claim_demo_output :
    demoMain =
      ["The factorial of 5 is 120",
       "The factorial of 0 is 1",
       "Error: Factorial is not defined for negative numbers"] := by
  rfl

/-- Claim C7: monotonicity: for all integers n1, n2 with n2 > n1 >= 0, the
result of calculate_factorial n2 is at least that of calculate_factorial n1. -/
theorem claim_monotone (n1 n2 : Int) (h1 : 0 ≤ n1) (h12 : n1 < n2)
    (r1 r2 : Int) (e1 : calculate_factorial n1 = Except.ok r1)
    (e2 : calculate_factorial n2 = Except.ok r2) : r1 ≤ r2 := by
  rw [calculate_factorial_eq_factorial n1 h1] at e1
  rw [calculate_factorial_eq_factorial n2 (by omega)] at e2
  have hr1 : r1 = (Nat.factorial n1.toNat : Int) := (Except.ok.inj e1).symm
  have hr2 : r2 = (Nat.factorial n2.toNat : Int) := (Except.ok.inj e2).symm
  rw [hr1, hr2]
  exact_mod_cast Nat.factorial_le (by omega)

/-- Witness for C7: monotonicity applied at n1 = 2, n2 = 4. -/
theorem claim_monotone_witness : (2 : Int) ≤ 24 :=
  claim_monotone 2 4 (by decide) (by decide) 2 24 rfl rfl

/-- Claim C8: calculate_factorial is deterministic: two calls on the same
argument yield the same outcome (same value or same error); in the
embedding it is a pure function, so outcomes of equal calls coincide. -/
theorem claim_deterministic (n : Int) (a b : Except String Int)
    (ha : calculate_factorial n = a) (hb : calculate_factorial n = b) :
    a = b := by
  rw [← ha, ← hb]

/-- Witness for C8 at n = 5. -/
theorem claim_deterministic_witness :
    (Except.ok 120 : Except String Int) = Except.ok 120 :=
  claim_deterministic 5 (Except.ok 120) (Except.ok 120) rfl rfl

/-- Claim C9: totality: for every integer n, calculate_factorial n is a
defined outcome, either a returned value or a raised error. -/
theorem claim_total (n : Int) :
    (∃ r : Int, calculate_factorial n = Except.ok r) ∨
    (∃ e : String, calculate_factorial n = Except.error e) := by
  by_cases h : n < 0
  · right
    exact ⟨_, by unfold calculate_factorial; rw [if_pos h]⟩
  · left
    exact ⟨_, calculate_factorial_eq_factorial n (by omega)⟩

/-- Claim C10: for every n >= 0, calculate_factorial n returns a value
that is at least 1 (strictly positive, never 0 or negative); and
calculate_factorial 0 = calculate_factorial 1 = 1, so monotonicity is
non-strict at n = 0. -/
theorem claim_positive :
    (∀ n : Int, 0 ≤ n →
      ∃ r : Int, calculate_factorial n = Except.ok r ∧ 1 ≤ r) ∧
    calculate_factorial 0 = Except.ok 1 ∧
    calculate_factorial 1 = Except.ok 1 := by
  refine ⟨fun n h => ?_, rfl, rfl⟩
  refine ⟨_, calculate_factorial_eq_factorial n h, ?_⟩
  have := Nat.factorial_pos n.toNat
  omega

/-- Witness for C10 at n = 7. -/
theorem claim_positive_witness :
    ∃ r : Int, calculate_factorial 7 = Except.ok r ∧ 1 ≤ r :=
  claim_positive.1 7 (by decide)
